import Mathlib

/-
  Shallow embedding of `src/main.py`, a small Jira MCP server.

  Modelling conventions:
  * Python strings are Lean `String`; a Python value that may be `None` is
    `Option String` (`none` = Python `None`).
  * File bytes are `List Nat`.
  * The local filesystem is restricted to what the program touches: the
    staging directory `./tmp` (whether it exists, and its files keyed by
    filename).
  * Network traffic is an oracle (`Net`): each HTTP interaction the program
    performs is a field mapping the request data to either `Except.error e`
    (a `requests.RequestException`, covering transport failures and
    `raise_for_status` on a non-success status) or `Except.ok payload`
    (the parsed response).
  * Every operation returns an `Outcome`: its Python return value
    (`PyResult`: a normal return, possibly `None`, or an uncaught Python
    exception), the final filesystem, the list of network calls performed,
    and the log entries emitted (one constructor per `logger.*` call site).
-/

set_option maxHeartbeats 1000000

namespace Jira

/-- An attachment record as read from the issue JSON: its `filename` and its
`content` URL. -/
structure Attachment where
  filename : String
  content : String
deriving DecidableEq, Repr

/-- Values occurring in the dictionaries the tool operations return. -/
inductive RVal where
  | str (s : String)
  | strOpt (s : Option String)
  | strList (l : List String)
  | nat (n : Nat)
deriving DecidableEq, Repr

/-- A Python dict returned by a tool operation, as an ordered key/value list. -/
abbrev RDict := List (String × RVal)

/-- Lookup of a key in a returned dict (first binding wins, as in a Python
dict built from distinct literal keys). -/
def lookupKey : RDict → String → Option RVal
  | [], _ => none
  | p :: rest, key => if p.1 = key then some p.2 else lookupKey rest key

/-- One constructor per `logger.*` call site in `src/main.py`. -/
inductive LogEntry where
  | errorNoIssueKey
  | infoUsingEnvKey (k : Option String)
  | warnProjectMismatch (k : String) (p : Option String)
  | infoRequestedFiles (names : List String)
  | infoAvailableFiles (names : List String)
  | debugDownloaded (path : String)
  | warnFileNotFoundInAttachments (name : String)
  | infoNoAttachments (k : String)
  | errorDownloading (k : String) (e : String)
  | errorLocalFileNotFound (path : String)
  | debugUploaded (name : String) (k : String)
  | errorUploading (name : String) (k : String) (e : String)
  | debugAddedComment (k : String) (excerpt : String)
  | errorAddingComment (k : String) (e : String)
  | errorFetchingProjectInfo (p : Option String) (e : String)
  | errorFetchingEpicField (e : String)
deriving DecidableEq, Repr

/-- A network call performed by the program. -/
inductive NetCall where
  | httpGet (url : String)
  | httpPost (url : String)
deriving DecidableEq, Repr

/-- Python exceptions that escape a tool operation uncaught. -/
inductive PyExn where
  /-- `AttributeError`: calling `.startswith` on `None` (line 89/197/264 with
  a `None` issue key). -/
  | attributeErrorNoneStartswith
  /-- `FileNotFoundError`: `open(path, "rb")` on a missing file (line 209). -/
  | fileNotFoundError (path : String)
deriving DecidableEq, Repr

/-- The value a Python function call produces: a normal return (possibly
`None`, hence the `Option` in use sites) or an uncaught exception. -/
inductive PyResult (α : Type) where
  | ok (v : Option α)
  | exn (e : PyExn)
deriving DecidableEq, Repr

/-- The staging-area files: an ordered association of filename to bytes. -/
abbrev FileMap := List (String × List Nat)

/-- Overwrite-or-append an entry (models writing `./tmp/<n>`). -/
def setEntry : FileMap → String → List Nat → FileMap
  | [], n, b => [(n, b)]
  | p :: rest, n, b => if p.1 = n then (n, b) :: rest else p :: setEntry rest n b

/-- Lookup of a filename's bytes. -/
def getEntry : FileMap → String → Option (List Nat)
  | [], _ => none
  | p :: rest, n => if p.1 = n then some p.2 else getEntry rest n

/-- The part of the local filesystem the program touches: the `./tmp`
staging directory. -/
structure FS where
  tmpExists : Bool
  files : FileMap
deriving DecidableEq, Repr

/-- Bytes of the staged file `./tmp/<n>`, if present. -/
def FS.getFile (fs : FS) (n : String) : Option (List Nat) :=
  getEntry fs.files n

/-- `os.path.exists("./tmp/<n>")`. -/
def FS.existsFile (fs : FS) (n : String) : Bool :=
  (fs.getFile n).isSome

/-- `open("./tmp/<n>", "wb"); f.write(b)`: create or truncate-overwrite. -/
def FS.writeFile (fs : FS) (n : String) (b : List Nat) : FS :=
  { tmpExists := fs.tmpExists, files := setEntry fs.files n b }

/-- `os.makedirs("./tmp", exist_ok=True)`. -/
def FS.mkTmp (fs : FS) : FS :=
  { fs with tmpExists := true }

/-- Parsed body of a created-comment response (`response.json()` in
`add_comment`); absent keys are `none`. -/
structure CommentData where
  id : Option String
  created : Option String
  authorDisplayName : Option String
deriving DecidableEq, Repr

/-- Parsed body of the project response in `get_project_info`. -/
structure ProjectData where
  name : Option String
  id : Option String
  projectTypeKey : Option String
  description : Option String
deriving DecidableEq, Repr

/-- One field descriptor from `GET /rest/api/3/field`. -/
structure FieldData where
  name : Option String
  id : String
deriving DecidableEq, Repr

/-- The network oracle: what Jira answers to each HTTP interaction the
program performs.  `Except.error e` is a `requests.RequestException`. -/
structure Net where
  /-- `GET {JIRA_URL}/rest/api/3/issue/{key}`, parsed down to
  `issue["fields"]["attachment"]`. -/
  getIssue : String → Except String (List Attachment)
  /-- `GET <content url>` for an attachment's bytes. -/
  getContent : String → Except String (List Nat)
  /-- `POST .../issue/{key}/attachments` with a multipart file
  (url, filename, bytes). -/
  postUpload : String → String → List Nat → Except String Unit
  /-- `POST .../issue/{key}/comment` with the comment document built from
  the given text (url, comment text). -/
  postComment : String → String → Except String CommentData
  /-- `GET {JIRA_URL}/rest/api/3/project/{PROJECT_KEY}`. -/
  getProject : String → Except String ProjectData
  /-- `GET {JIRA_URL}/rest/api/3/field`. -/
  getFields : String → Except String (List FieldData)

/-- The environment-sourced module configuration (lines 12-17);
`none` = the environment variable is unset (`os.getenv` returned `None`). -/
structure Config where
  jiraUrl : Option String
  username : Option String
  apiToken : Option String
  projectKey : Option String
  issueKey : Option String

/-- Python `f"{x}"` rendering of a possibly-`None` string. -/
def pyStr : Option String → String
  | none => "None"
  | some s => s

/-- Python truthiness of a possibly-`None` string (`if not x`). -/
def truthy : Option String → Bool
  | none => false
  | some s => !(s == "")

/-- Python `repr` of a single string with the quotes used by f-string list
rendering. -/
def pyQuote (s : String) : String := "\x27" ++ s ++ "\x27"

/-- Python f-string rendering of a list of strings, e.g. `['ghost.png']`. -/
def pyListRepr (xs : List String) : String :=
  "[" ++ String.intercalate ", " (xs.map pyQuote) ++ "]"

/-- Everything a tool operation produces: its Python return value, the final
filesystem, the network calls made, and the log emitted. -/
structure Outcome (α : Type) where
  result : PyResult α
  fs : FS
  net : List NetCall
  log : List LogEntry

/-- URL of the issue resource (line 92). -/
def issueUrl (cfg : Config) (k : String) : String :=
  pyStr cfg.jiraUrl ++ "/rest/api/3/issue/" ++ k

/-- URL of the issue's attachments collection (line 200). -/
def uploadUrl (cfg : Config) (k : String) : String :=
  pyStr cfg.jiraUrl ++ "/rest/api/3/issue/" ++ k ++ "/attachments"

/-- URL of the issue's comments collection (line 267). -/
def commentUrl (cfg : Config) (k : String) : String :=
  pyStr cfg.jiraUrl ++ "/rest/api/3/issue/" ++ k ++ "/comment"

/-- URL of the configured project resource (line 50). -/
def projectUrl (cfg : Config) : String :=
  pyStr cfg.jiraUrl ++ "/rest/api/3/project/" ++ pyStr cfg.projectKey

/-- URL of the field catalogue (line 25). -/
def fieldsUrl (cfg : Config) : String :=
  pyStr cfg.jiraUrl ++ "/rest/api/3/field"

/-- The shared issue-key resolution logic at the start of each tool
operation (lines 82-86, 190-194, 257-261): if the provided key is falsy,
log an error when the environment default is also falsy, substitute the
environment default, and log which key is being used.  Returns the resolved
key (which may still be `None`) and the log emitted. -/
def resolve_issue_key (provided : Option String) (envKey : Option String) :
    Option String × List LogEntry :=
  if truthy provided then (provided, [])
  else
    (envKey,
      (if truthy envKey then [] else [LogEntry.errorNoIssueKey]) ++
        [LogEntry.infoUsingEnvKey envKey])

/-- The soft project membership check (lines 88-90, 196-198, 263-265): a
warning is logged when the resolved key does not start with
`f"{PROJECT_KEY}-"`; nothing else happens. -/
def mismatchWarn (cfg : Config) (k : String) : List LogEntry :=
  if k.startsWith (pyStr cfg.projectKey ++ "-") then []
  else [LogEntry.warnProjectMismatch k cfg.projectKey]

/-- State of the download loops: either every iteration completed (`done`,
with the accumulated saved paths and not-found names), or an iteration's
content fetch raised (`failed`), keeping the filesystem writes, network
calls and log accumulated so far. -/
inductive DlStep where
  | done (fs : FS) (saved notFound : List String) (calls : List NetCall)
      (log : List LogEntry)
  | failed (fs : FS) (calls : List NetCall) (log : List LogEntry) (e : String)

/-- The filtered download loop (lines 118-141): for each requested name,
find the first attachment with that exact filename; fetch and write it if
found, otherwise record the name as not found. -/
def dlFiltered (net : Net) (atts : List Attachment) :
    List String → FS → List String → List String → List NetCall →
      List LogEntry → DlStep
  | [], fs, saved, notFound, calls, log => .done fs saved notFound calls log
  | f :: rest, fs, saved, notFound, calls, log =>
    match atts.find? (fun a => a.filename == f) with
    | some att =>
      match net.getContent att.content with
      | .error e => .failed fs (calls ++ [NetCall.httpGet att.content]) log e
      | .ok bytes =>
        dlFiltered net atts rest (fs.writeFile att.filename bytes)
          (saved ++ ["./tmp/" ++ att.filename]) notFound
          (calls ++ [NetCall.httpGet att.content])
          (log ++ [LogEntry.debugDownloaded ("./tmp/" ++ att.filename)])
    | none =>
      dlFiltered net atts rest fs saved (notFound ++ [f]) calls
        (log ++ [LogEntry.warnFileNotFoundInAttachments f])

/-- The download-all loop (lines 144-156): fetch and write every
attachment in order. -/
def dlAll (net : Net) :
    List Attachment → FS → List String → List NetCall → List LogEntry → DlStep
  | [], fs, saved, calls, log => .done fs saved [] calls log
  | att :: rest, fs, saved, calls, log =>
    match net.getContent att.content with
    | .error e => .failed fs (calls ++ [NetCall.httpGet att.content]) log e
    | .ok bytes =>
      dlAll net rest (fs.writeFile att.filename bytes)
        (saved ++ ["./tmp/" ++ att.filename])
        (calls ++ [NetCall.httpGet att.content])
        (log ++ [LogEntry.debugDownloaded ("./tmp/" ++ att.filename)])

/-- The paths the filtered download saves: each requested name with an
exact match in the attachment list contributes its staging path, in request
order. -/
def savedPaths (atts : List Attachment) (names : List String) : List String :=
  names.filterMap (fun f =>
    if ∃ a ∈ atts, a.filename = f then some ("./tmp/" ++ f) else none)

/-- The requested names with no exact match in the attachment list, in
request order. -/
def missedNames (atts : List Attachment) (names : List String) :
    List String :=
  names.filter (fun f => decide (¬∃ a ∈ atts, a.filename = f))

/-- The response message of the filtered branch (lines 159-163). -/
def filteredMessage (k : String) (saved notFound : List String)
    (reqCount : Nat) : String :=
  if notFound.isEmpty then
    "Successfully downloaded all " ++ toString saved.length ++
      " requested files from issue " ++ k
  else
    "Downloaded " ++ toString saved.length ++ " of " ++ toString reqCount ++
      " requested files from issue " ++ k ++ ". Not found: " ++
      pyListRepr notFound

/-- The success-path result dict of `download_attachments` (lines 167-173). -/
def downloadDict (cfg : Config) (k : String) (saved notFound : List String)
    (message : String) : RDict :=
  [("downloaded_files", RVal.strList saved),
   ("not_found_files", RVal.strList notFound),
   ("message", RVal.str message),
   ("issue_key", RVal.str k),
   ("project_key", RVal.strOpt cfg.projectKey)]

/-- The filtered branch of `download_attachments` after a successful issue
fetch with a nonempty attachment list and a truthy `filenames` (lines
113-141 and 158-176). -/
def filteredRun (cfg : Config) (net : Net) (fs1 : FS) (k : String)
    (attachments : List Attachment) (fl : List String) : Outcome RDict :=
  match dlFiltered net attachments fl fs1 [] []
      [NetCall.httpGet (issueUrl cfg k)]
      [LogEntry.infoRequestedFiles fl,
       LogEntry.infoAvailableFiles (attachments.map (fun a => a.filename))] with
  | .failed fs2 calls log2 e =>
    { result := .ok none, fs := fs2, net := calls,
      log := log2 ++ [LogEntry.errorDownloading k e] }
  | .done fs2 saved notFound calls log2 =>
    { result := .ok (some (downloadDict cfg k saved notFound
        (filteredMessage k saved notFound fl.length))),
      fs := fs2, net := calls, log := log2 }

/-- The download-all branch of `download_attachments` (lines 142-156 and
158-176). -/
def allRun (cfg : Config) (net : Net) (fs1 : FS) (k : String)
    (attachments : List Attachment) : Outcome RDict :=
  match dlAll net attachments fs1 [] [NetCall.httpGet (issueUrl cfg k)] [] with
  | .failed fs2 calls log2 e =>
    { result := .ok none, fs := fs2, net := calls,
      log := log2 ++ [LogEntry.errorDownloading k e] }
  | .done fs2 saved notFound calls log2 =>
    { result := .ok (some (downloadDict cfg k saved notFound
        ("Successfully downloaded " ++ toString saved.length ++
          " attachments from issue " ++ k))),
      fs := fs2, net := calls, log := log2 }

/-- `download_attachments` from the resolved (string) issue key on: lines
92-176.  Fetch the issue; on failure log and return `None` (lines 175-176).
On success create `./tmp` (line 106); with zero attachments return the
reduced dict of line 110; otherwise run the filtered or the download-all
branch depending on the truthiness of `filenames`. -/
def download_core (cfg : Config) (net : Net) (fs : FS) (k : String)
    (filenames : Option (List String)) : Outcome RDict :=
  match net.getIssue (issueUrl cfg k) with
  | .error e =>
    { result := .ok none, fs := fs, net := [NetCall.httpGet (issueUrl cfg k)],
      log := [LogEntry.errorDownloading k e] }
  | .ok attachments =>
    let fs1 := fs.mkTmp
    if attachments.isEmpty then
      { result := .ok (some [("downloaded_files", RVal.strList []),
          ("message", RVal.str ("No attachments found for issue " ++ k))]),
        fs := fs1, net := [NetCall.httpGet (issueUrl cfg k)],
        log := [LogEntry.infoNoAttachments k] }
    else
      match filenames with
      | some (f :: fl) => filteredRun cfg net fs1 k attachments (f :: fl)
      | _ => allRun cfg net fs1 k attachments

/-- The tool operation `download_attachments` (lines 70-176). -/
def download_attachments (cfg : Config) (net : Net) (fs : FS)
    (issue_key : Option String) (filenames : Option (List String)) :
    Outcome RDict :=
  match resolve_issue_key issue_key cfg.issueKey with
  | (none, rlog) =>
    { result := .exn .attributeErrorNoneStartswith, fs := fs, net := [],
      log := rlog }
  | (some k, rlog) =>
    let core := download_core cfg net fs k filenames
    { core with log := rlog ++ mismatchWarn cfg k ++ core.log }

/-- `upload_attachment` from the resolved issue key on: lines 200-223.
The missing-file check of lines 205-206 only logs; the subsequent
`open(file_path, "rb")` raises `FileNotFoundError` (uncaught: the handler
of line 222 only catches `requests.RequestException`) before any request
is issued. -/
def upload_core (cfg : Config) (net : Net) (fs : FS) (k : String)
    (filename : String) : Outcome RDict :=
  let path := "./tmp/" ++ filename
  let existsLog :=
    if fs.existsFile filename then []
    else [LogEntry.errorLocalFileNotFound path]
  match fs.getFile filename with
  | none =>
    { result := .exn (.fileNotFoundError path), fs := fs, net := [],
      log := existsLog }
  | some b =>
    match net.postUpload (uploadUrl cfg k) filename b with
    | .error e =>
      { result := .ok none, fs := fs,
        net := [NetCall.httpPost (uploadUrl cfg k)],
        log := existsLog ++ [LogEntry.errorUploading filename k e] }
    | .ok _ =>
      { result := .ok (some [
          ("uploaded_file", RVal.str filename),
          ("message", RVal.str ("Successfully uploaded " ++ filename ++
            " to issue " ++ k)),
          ("issue_key", RVal.str k),
          ("project_key", RVal.strOpt cfg.projectKey)]),
        fs := fs, net := [NetCall.httpPost (uploadUrl cfg k)],
        log := existsLog ++ [LogEntry.debugUploaded filename k] }

/-- The tool operation `upload_attachment` (lines 178-223). -/
def upload_attachment (cfg : Config) (net : Net) (fs : FS)
    (filename : String) (issue_key : Option String) : Outcome RDict :=
  match resolve_issue_key issue_key cfg.issueKey with
  | (none, rlog) =>
    { result := .exn .attributeErrorNoneStartswith, fs := fs, net := [],
      log := rlog }
  | (some k, rlog) =>
    let core := upload_core cfg net fs k filename
    { core with log := rlog ++ mismatchWarn cfg k ++ core.log }

/-- The tool operation `list_tmp_files` (lines 225-243).  When `./tmp` does
not exist, return the empty list with an explanatory message (line 233);
otherwise list the staged files. -/
def list_tmp_files (fs : FS) : Outcome RDict :=
  if fs.tmpExists then
    let files := fs.files.map (fun p => p.1)
    { result := .ok (some [
        ("files", RVal.strList files),
        ("count", RVal.nat files.length),
        ("message", RVal.str ("Found " ++ toString files.length ++
          " files in ./tmp directory"))]),
      fs := fs, net := [], log := [] }
  else
    { result := .ok (some [
        ("files", RVal.strList []),
        ("message", RVal.str "./tmp directory does not exist")]),
      fs := fs, net := [], log := [] }

/-- The tool operation `add_comment` (lines 245-307). -/
def add_comment (cfg : Config) (net : Net) (fs : FS)
    (comment_text : String) (issue_key : Option String) : Outcome RDict :=
  match resolve_issue_key issue_key cfg.issueKey with
  | (none, rlog) =>
    { result := .exn .attributeErrorNoneStartswith, fs := fs, net := [],
      log := rlog }
  | (some k, rlog) =>
    match net.postComment (commentUrl cfg k) comment_text with
    | .error e =>
      { result := .ok none, fs := fs,
        net := [NetCall.httpPost (commentUrl cfg k)],
        log := rlog ++ mismatchWarn cfg k ++
          [LogEntry.errorAddingComment k e] }
    | .ok c =>
      { result := .ok (some [
          ("comment_id", RVal.strOpt c.id),
          ("comment_text", RVal.str comment_text),
          ("message", RVal.str ("Successfully added comment to issue " ++ k)),
          ("issue_key", RVal.str k),
          ("project_key", RVal.strOpt cfg.projectKey),
          ("created", RVal.strOpt c.created),
          ("author", RVal.strOpt c.authorDisplayName)]),
        fs := fs, net := [NetCall.httpPost (commentUrl cfg k)],
        log := rlog ++ mismatchWarn cfg k ++
          [LogEntry.debugAddedComment k (comment_text.take 50)] }

/-- The tool operation `get_project_info` (lines 43-68). -/
def get_project_info (cfg : Config) (net : Net) (fs : FS) : Outcome RDict :=
  match net.getProject (projectUrl cfg) with
  | .error e =>
    { result := .ok none, fs := fs, net := [NetCall.httpGet (projectUrl cfg)],
      log := [LogEntry.errorFetchingProjectInfo cfg.projectKey e] }
  | .ok p =>
    { result := .ok (some [
        ("project_key", RVal.strOpt cfg.projectKey),
        ("project_name", RVal.strOpt p.name),
        ("project_id", RVal.strOpt p.id),
        ("project_type", RVal.strOpt p.projectTypeKey),
        ("description", RVal.str (p.description.getD
          "No description available"))]),
      fs := fs, net := [NetCall.httpGet (projectUrl cfg)], log := [] }

/-- The tool operation `get_epic_name_field_id` (lines 22-41). -/
def get_epic_name_field_id (cfg : Config) (net : Net) (fs : FS) :
    Outcome String :=
  match net.getFields (fieldsUrl cfg) with
  | .error e =>
    { result := .ok none, fs := fs, net := [NetCall.httpGet (fieldsUrl cfg)],
      log := [LogEntry.errorFetchingEpicField e] }
  | .ok fields =>
    match fields.find? (fun f => f.name == some "Epic Name") with
    | some f =>
      { result := .ok (some f.id), fs := fs,
        net := [NetCall.httpGet (fieldsUrl cfg)], log := [] }
    | none =>
      { result := .ok (some "customfield_10011"), fs := fs,
        net := [NetCall.httpGet (fieldsUrl cfg)], log := [] }

/- Concrete fixtures used to instantiate the theorems below. -/

/-- A sample attachment named `a.png`. -/
def attA : Attachment := { filename := "a.png", content := "https://x/att/1" }

/-- First of two attachments sharing the filename `dup.png`. -/
def attDup1 : Attachment :=
  { filename := "dup.png", content := "https://x/att/2" }

/-- Second of two attachments sharing the filename `dup.png`. -/
def attDup2 : Attachment :=
  { filename := "dup.png", content := "https://x/att/3" }

/-- A fully-populated configuration. -/
def cfgW : Config :=
  { jiraUrl := some "https://jira.example", username := some "user",
    apiToken := some "tok", projectKey := some "PROJ",
    issueKey := some "PROJ-1" }

/-- The same configuration with no default issue key in the environment. -/
def cfgNoDefault : Config := { cfgW with issueKey := none }

/-- An oracle where every call succeeds and the issue has one attachment,
`a.png`. -/
def netW : Net :=
  { getIssue := fun _ => Except.ok [attA],
    getContent := fun _ => Except.ok [7, 7, 7],
    postUpload := fun _ _ _ => Except.ok (),
    postComment := fun _ _ =>
      Except.ok { id := some "10", created := some "2020",
                  authorDisplayName := some "Ann" },
    getProject := fun _ =>
      Except.ok { name := some "P", id := some "1",
                  projectTypeKey := some "software", description := some "d" },
    getFields := fun _ => Except.ok [] }

/-- An oracle whose issue carries duplicate filenames after a decoy. -/
def netDup : Net :=
  { netW with getIssue := fun _ => Except.ok [attA, attDup1, attDup2] }

/-- An oracle where every call fails with a `RequestException`. -/
def netFailAll : Net :=
  { getIssue := fun _ => Except.error "boom",
    getContent := fun _ => Except.error "boom",
    postUpload := fun _ _ _ => Except.error "boom",
    postComment := fun _ _ => Except.error "boom",
    getProject := fun _ => Except.error "boom",
    getFields := fun _ => Except.error "boom" }

/-- An oracle whose issue has zero attachments. -/
def netEmptyIssue : Net :=
  { netW with getIssue := fun _ => Except.ok [] }

/-- The empty local filesystem: no `./tmp` yet. -/
def fs0 : FS := { tmpExists := false, files := [] }

/-- A staging area already holding stale bytes under `dup.png` and a file
`up.txt`. -/
def fsStale : FS :=
  { tmpExists := true, files := [("dup.png", [9, 9]), ("up.txt", [1])] }

/-- An oracle where the issue fetch succeeds (one attachment) but every
content fetch fails. -/
def netContentFail : Net :=
  { netW with getContent := fun _ => Except.error "boom" }

/- Theorems. -/

theorem getEntry_setEntry_self (l : FileMap) (n : String) (b : List Nat) :
    getEntry (setEntry l n b) n = some b := by
  induction l with
  | nil => simp [setEntry, getEntry]
  | cons p rest ih =>
    by_cases h : p.1 = n
    · simp [setEntry, getEntry, h]
    · simp [setEntry, getEntry, h, ih]

theorem find_first_match {α : Type} (p : α → Bool) (pre : List α) (a : α)
    (post : List α) (hpre : ∀ x ∈ pre, p x = false) (ha : p a = true) :
    (pre ++ a :: post).find? p = some a := by
  induction pre with
  | nil => simp [List.find?, ha]
  | cons x rest ih =>
    have hx : p x = false := hpre x (by simp)
    simpa [List.find?, hx] using ih (fun y hy => hpre y (by simp [hy]))

/-- Claim C4: `list_tmp_files` on a nonexistent StagingArea returns a normal
dict with an empty `files` list and an explanatory message; it performs no
network call, changes no file, and raises no exception. -/
theorem C4_list_staging_missing_dir (fs : FS) (h : fs.tmpExists = false) :
    (list_tmp_files fs).result = PyResult.ok (some [
        ("files", RVal.strList []),
        ("message", RVal.str "./tmp directory does not exist")]) ∧
    (list_tmp_files fs).net = [] ∧ (list_tmp_files fs).fs = fs := by
  simp [list_tmp_files, h]

theorem C4_witness :
    (list_tmp_files fs0).result = PyResult.ok (some [
        ("files", RVal.strList []),
        ("message", RVal.str "./tmp directory does not exist")]) ∧
    (list_tmp_files fs0).net = [] ∧ (list_tmp_files fs0).fs = fs0 :=
  C4_list_staging_missing_dir fs0 rfl

/-- Claim C10: when the initial issue fetch of `download_attachments` fails,
the local filesystem is returned unchanged (in particular `./tmp` is not
created and no file is written), the call is swallowed to a `None` return,
and the failure is logged. -/
theorem C10_fetch_failure_leaves_fs_unchanged (cfg : Config) (net : Net)
    (fs : FS) (k e : String) (fn : Option (List String)) (hk : k ≠ "")
    (hiss : net.getIssue (issueUrl cfg k) = Except.error e) :
    (download_attachments cfg net fs (some k) fn).fs = fs ∧
    (download_attachments cfg net fs (some k) fn).result = PyResult.ok none ∧
    LogEntry.errorDownloading k e ∈
      (download_attachments cfg net fs (some k) fn).log := by
  have hkb : (k == "") = false := by simpa using hk
  simp [download_attachments, resolve_issue_key, truthy, hkb,
    download_core, hiss]

theorem C10_witness :
    (download_attachments cfgW netFailAll fs0 (some "PROJ-1") none).fs = fs0 ∧
    (download_attachments cfgW netFailAll fs0 (some "PROJ-1") none).result =
      PyResult.ok none ∧
    LogEntry.errorDownloading "PROJ-1" "boom" ∈
      (download_attachments cfgW netFailAll fs0 (some "PROJ-1") none).log :=
  C10_fetch_failure_leaves_fs_unchanged cfgW netFailAll fs0 "PROJ-1" "boom"
    none (by decide) rfl

/-- Claim C9: when the issue fetch succeeds and the issue has zero
attachments, `download_attachments` still creates `./tmp`, writes no file,
and returns a dict holding only `downloaded_files = []` and a message; the
`not_found_files`, `issue_key` and `project_key` keys of the normal return
shape are absent. -/
theorem C9_zero_attachments_reduced_dict (cfg : Config) (net : Net) (fs : FS)
    (k n : String) (fn : Option (List String)) (hk : k ≠ "")
    (hiss : net.getIssue (issueUrl cfg k) = Except.ok []) :
    (download_attachments cfg net fs (some k) fn).result = PyResult.ok (some
      [("downloaded_files", RVal.strList []),
       ("message", RVal.str ("No attachments found for issue " ++ k))]) ∧
    (download_attachments cfg net fs (some k) fn).fs.tmpExists = true ∧
    (download_attachments cfg net fs (some k) fn).fs.getFile n =
      fs.getFile n ∧
    lookupKey [("downloaded_files", RVal.strList []),
       ("message", RVal.str ("No attachments found for issue " ++ k))]
      "not_found_files" = none ∧
    lookupKey [("downloaded_files", RVal.strList []),
       ("message", RVal.str ("No attachments found for issue " ++ k))]
      "issue_key" = none ∧
    lookupKey [("downloaded_files", RVal.strList []),
       ("message", RVal.str ("No attachments found for issue " ++ k))]
      "project_key" = none ∧
    lookupKey [("downloaded_files", RVal.strList []),
       ("message", RVal.str ("No attachments found for issue " ++ k))]
      "downloaded_files" = some (RVal.strList []) := by
  have hkb : (k == "") = false := by simpa using hk
  simp [download_attachments, resolve_issue_key, truthy, hkb,
    download_core, hiss, FS.mkTmp, FS.getFile, lookupKey]

theorem C9_witness :
    (download_attachments cfgW netEmptyIssue fs0 (some "PROJ-1") none).result
      = PyResult.ok (some
      [("downloaded_files", RVal.strList []),
       ("message", RVal.str ("No attachments found for issue " ++ "PROJ-1"))]) ∧
    (download_attachments cfgW netEmptyIssue fs0 (some "PROJ-1") none).fs.tmpExists = true ∧
    (download_attachments cfgW netEmptyIssue fs0 (some "PROJ-1") none).fs.getFile "a.png" =
      fs0.getFile "a.png" ∧
    lookupKey [("downloaded_files", RVal.strList []),
       ("message", RVal.str ("No attachments found for issue " ++ "PROJ-1"))]
      "not_found_files" = none ∧
    lookupKey [("downloaded_files", RVal.strList []),
       ("message", RVal.str ("No attachments found for issue " ++ "PROJ-1"))]
      "issue_key" = none ∧
    lookupKey [("downloaded_files", RVal.strList []),
       ("message", RVal.str ("No attachments found for issue " ++ "PROJ-1"))]
      "project_key" = none ∧
    lookupKey [("downloaded_files", RVal.strList []),
       ("message", RVal.str ("No attachments found for issue " ++ "PROJ-1"))]
      "downloaded_files" = some (RVal.strList []) :=
  C9_zero_attachments_reduced_dict cfgW netEmptyIssue fs0 "PROJ-1" "a.png"
    none (by decide) rfl

/-- Claim C2: `upload_attachment` on a filename absent from the StagingArea
logs the missing file, fails with the local file-missing error (the
uncaught `FileNotFoundError` raised by `open`), performs no network call,
and leaves the filesystem unchanged. -/
theorem C2_upload_missing_file_no_network (cfg : Config) (net : Net)
    (fs : FS) (k fname : String) (hk : k ≠ "")
    (hmiss : fs.getFile fname = none) :
    (upload_attachment cfg net fs fname (some k)).result =
      PyResult.exn (PyExn.fileNotFoundError ("./tmp/" ++ fname)) ∧
    (upload_attachment cfg net fs fname (some k)).net = [] ∧
    LogEntry.errorLocalFileNotFound ("./tmp/" ++ fname) ∈
      (upload_attachment cfg net fs fname (some k)).log ∧
    (upload_attachment cfg net fs fname (some k)).fs = fs := by
  have hkb : (k == "") = false := by simpa using hk
  simp [upload_attachment, resolve_issue_key, truthy, hkb, upload_core,
    FS.existsFile, hmiss]

theorem C2_witness :
    (upload_attachment cfgW netW fsStale "missing.txt" (some "PROJ-1")).result
      = PyResult.exn (PyExn.fileNotFoundError ("./tmp/" ++ "missing.txt")) ∧
    (upload_attachment cfgW netW fsStale "missing.txt" (some "PROJ-1")).net = [] ∧
    LogEntry.errorLocalFileNotFound ("./tmp/" ++ "missing.txt") ∈
      (upload_attachment cfgW netW fsStale "missing.txt" (some "PROJ-1")).log ∧
    (upload_attachment cfgW netW fsStale "missing.txt" (some "PROJ-1")).fs =
      fsStale :=
  C2_upload_missing_file_no_network cfgW netW fsStale "PROJ-1" "missing.txt"
    (by decide) (by decide)

/-- Claim C3: the shared issue-key resolution logic, with no key provided
and no environment default, logs the missing-issue-key error and the
operation then fails (the `None` key reaches `.startswith` and raises)
before any network call; with a default configured, the default is returned
unchanged and the operation behaves exactly as if that key had been
provided. -/
theorem C3_issue_key_resolution (cfg cfg2 : Config) (net : Net) (fs : FS)
    (fn : Option (List String)) (fname d : String)
    (hnone : cfg.issueKey = none) (hd : d ≠ "")
    (h2 : cfg2.issueKey = some d) :
    resolve_issue_key none none =
      (none, [LogEntry.errorNoIssueKey, LogEntry.infoUsingEnvKey none]) ∧
    ((download_attachments cfg net fs none fn).result =
        PyResult.exn PyExn.attributeErrorNoneStartswith ∧
      (download_attachments cfg net fs none fn).net = [] ∧
      (download_attachments cfg net fs none fn).fs = fs ∧
      LogEntry.errorNoIssueKey ∈
        (download_attachments cfg net fs none fn).log) ∧
    ((upload_attachment cfg net fs fname none).result =
        PyResult.exn PyExn.attributeErrorNoneStartswith ∧
      (upload_attachment cfg net fs fname none).net = [] ∧
      LogEntry.errorNoIssueKey ∈ (upload_attachment cfg net fs fname none).log) ∧
    resolve_issue_key none (some d) =
      (some d, [LogEntry.infoUsingEnvKey (some d)]) ∧
    ((download_attachments cfg2 net fs none fn).result =
        (download_attachments cfg2 net fs (some d) fn).result ∧
      (download_attachments cfg2 net fs none fn).fs =
        (download_attachments cfg2 net fs (some d) fn).fs ∧
      (download_attachments cfg2 net fs none fn).net =
        (download_attachments cfg2 net fs (some d) fn).net) := by
  have hdb : (d == "") = false := by simpa using hd
  refine ⟨by simp [resolve_issue_key, truthy], ⟨?_, ?_, ?_, ?_⟩,
    ⟨?_, ?_, ?_⟩, by simp [resolve_issue_key, truthy, hdb], ⟨?_, ?_, ?_⟩⟩ <;>
    simp [download_attachments, upload_attachment, resolve_issue_key,
      truthy, hnone, h2, hdb]

theorem C3_witness :
    resolve_issue_key none none =
      (none, [LogEntry.errorNoIssueKey, LogEntry.infoUsingEnvKey none]) ∧
    ((download_attachments cfgNoDefault netW fs0 none none).result =
        PyResult.exn PyExn.attributeErrorNoneStartswith ∧
      (download_attachments cfgNoDefault netW fs0 none none).net = [] ∧
      (download_attachments cfgNoDefault netW fs0 none none).fs = fs0 ∧
      LogEntry.errorNoIssueKey ∈
        (download_attachments cfgNoDefault netW fs0 none none).log) ∧
    ((upload_attachment cfgNoDefault netW fs0 "up.txt" none).result =
        PyResult.exn PyExn.attributeErrorNoneStartswith ∧
      (upload_attachment cfgNoDefault netW fs0 "up.txt" none).net = [] ∧
      LogEntry.errorNoIssueKey ∈
        (upload_attachment cfgNoDefault netW fs0 "up.txt" none).log) ∧
    resolve_issue_key none (some "PROJ-1") =
      (some "PROJ-1", [LogEntry.infoUsingEnvKey (some "PROJ-1")]) ∧
    ((download_attachments cfgW netW fs0 none none).result =
        (download_attachments cfgW netW fs0 (some "PROJ-1") none).result ∧
      (download_attachments cfgW netW fs0 none none).fs =
        (download_attachments cfgW netW fs0 (some "PROJ-1") none).fs ∧
      (download_attachments cfgW netW fs0 none none).net =
        (download_attachments cfgW netW fs0 (some "PROJ-1") none).net) :=
  C3_issue_key_resolution cfgNoDefault cfgW netW fs0 none "up.txt" "PROJ-1"
    rfl (by decide) rfl

/-- Claim C5: in every tool-surface operation, a `RequestException` (any
non-success HTTP status or transport failure talking to Jira) is swallowed
after logging: the operation returns `None` — no structured error and no
success value.  Shown for `download_attachments` (both the initial issue
fetch and a mid-loop content fetch), `upload_attachment`, `add_comment`,
`get_project_info` and `get_epic_name_field_id`. -/
theorem C5_http_failures_swallowed (cfg : Config) (net net2 : Net) (fs : FS)
    (k fname txt e1 e2 e3 e4 e5 e6 : String) (b : List Nat)
    (fn : Option (List String)) (a : Attachment) (rest : List Attachment)
    (hk : k ≠ "")
    (h1 : net.getIssue (issueUrl cfg k) = Except.error e1)
    (h2 : fs.getFile fname = some b)
    (h3 : net.postUpload (uploadUrl cfg k) fname b = Except.error e2)
    (h4 : net.postComment (commentUrl cfg k) txt = Except.error e3)
    (h5 : net.getProject (projectUrl cfg) = Except.error e4)
    (h6 : net.getFields (fieldsUrl cfg) = Except.error e5)
    (h7 : net2.getIssue (issueUrl cfg k) = Except.ok (a :: rest))
    (h8 : net2.getContent a.content = Except.error e6) :
    ((download_attachments cfg net fs (some k) fn).result =
        PyResult.ok none ∧
      LogEntry.errorDownloading k e1 ∈
        (download_attachments cfg net fs (some k) fn).log) ∧
    ((download_attachments cfg net2 fs (some k) none).result =
        PyResult.ok none ∧
      LogEntry.errorDownloading k e6 ∈
        (download_attachments cfg net2 fs (some k) none).log) ∧
    ((upload_attachment cfg net fs fname (some k)).result =
        PyResult.ok none ∧
      LogEntry.errorUploading fname k e2 ∈
        (upload_attachment cfg net fs fname (some k)).log) ∧
    ((add_comment cfg net fs txt (some k)).result = PyResult.ok none ∧
      LogEntry.errorAddingComment k e3 ∈
        (add_comment cfg net fs txt (some k)).log) ∧
    ((get_project_info cfg net fs).result = PyResult.ok none ∧
      LogEntry.errorFetchingProjectInfo cfg.projectKey e4 ∈
        (get_project_info cfg net fs).log) ∧
    ((get_epic_name_field_id cfg net fs).result = PyResult.ok none ∧
      LogEntry.errorFetchingEpicField e5 ∈
        (get_epic_name_field_id cfg net fs).log) := by
  have hkb : (k == "") = false := by simpa using hk
  refine ⟨⟨?_, ?_⟩, ⟨?_, ?_⟩, ⟨?_, ?_⟩, ⟨?_, ?_⟩, ⟨?_, ?_⟩, ⟨?_, ?_⟩⟩ <;>
    simp [download_attachments, upload_attachment, add_comment,
      get_project_info, get_epic_name_field_id, resolve_issue_key, truthy,
      hkb, download_core, upload_core, allRun, dlAll, FS.existsFile,
      h1, h2, h3, h4, h5, h6, h7, h8]

theorem C5_witness :
    ((download_attachments cfgW netFailAll fsStale (some "PROJ-1") none).result
        = PyResult.ok none ∧
      LogEntry.errorDownloading "PROJ-1" "boom" ∈
        (download_attachments cfgW netFailAll fsStale (some "PROJ-1") none).log) ∧
    ((download_attachments cfgW netContentFail fsStale (some "PROJ-1") none).result
        = PyResult.ok none ∧
      LogEntry.errorDownloading "PROJ-1" "boom" ∈
        (download_attachments cfgW netContentFail fsStale (some "PROJ-1") none).log) ∧
    ((upload_attachment cfgW netFailAll fsStale "up.txt" (some "PROJ-1")).result
        = PyResult.ok none ∧
      LogEntry.errorUploading "up.txt" "PROJ-1" "boom" ∈
        (upload_attachment cfgW netFailAll fsStale "up.txt" (some "PROJ-1")).log) ∧
    ((add_comment cfgW netFailAll fsStale "hello" (some "PROJ-1")).result =
        PyResult.ok none ∧
      LogEntry.errorAddingComment "PROJ-1" "boom" ∈
        (add_comment cfgW netFailAll fsStale "hello" (some "PROJ-1")).log) ∧
    ((get_project_info cfgW netFailAll fsStale).result = PyResult.ok none ∧
      LogEntry.errorFetchingProjectInfo cfgW.projectKey "boom" ∈
        (get_project_info cfgW netFailAll fsStale).log) ∧
    ((get_epic_name_field_id cfgW netFailAll fsStale).result =
        PyResult.ok none ∧
      LogEntry.errorFetchingEpicField "boom" ∈
        (get_epic_name_field_id cfgW netFailAll fsStale).log) :=
  C5_http_failures_swallowed cfgW netFailAll netContentFail fsStale
    "PROJ-1" "up.txt" "hello" "boom" "boom" "boom" "boom" "boom" "boom"
    [1] none attA [] (by decide) rfl (by decide) rfl rfl rfl rfl rfl rfl

/-- Claim C8: the project-prefix check on a resolved issue key is soft.
`download_core` and `upload_core` are the operations from the line after
the check onward; the full operations agree with them on the returned
value, the filesystem and the network calls for every resolved key, whether
or not it starts with the configured prefix — the check contributes exactly
the warning log entry, present when and only when the prefix does not
match. -/
theorem C8_project_check_is_soft (cfg : Config) (net : Net) (fs : FS)
    (k fname : String) (fn : Option (List String)) (hk : k ≠ "") :
    (download_attachments cfg net fs (some k) fn).result =
      (download_core cfg net fs k fn).result ∧
    (download_attachments cfg net fs (some k) fn).fs =
      (download_core cfg net fs k fn).fs ∧
    (download_attachments cfg net fs (some k) fn).net =
      (download_core cfg net fs k fn).net ∧
    (download_attachments cfg net fs (some k) fn).log =
      mismatchWarn cfg k ++ (download_core cfg net fs k fn).log ∧
    (upload_attachment cfg net fs fname (some k)).result =
      (upload_core cfg net fs k fname).result ∧
    (upload_attachment cfg net fs fname (some k)).fs =
      (upload_core cfg net fs k fname).fs ∧
    (upload_attachment cfg net fs fname (some k)).net =
      (upload_core cfg net fs k fname).net ∧
    (upload_attachment cfg net fs fname (some k)).log =
      mismatchWarn cfg k ++ (upload_core cfg net fs k fname).log ∧
    mismatchWarn cfg k =
      (if k.startsWith (pyStr cfg.projectKey ++ "-") then []
       else [LogEntry.warnProjectMismatch k cfg.projectKey]) := by
  have hkb : (k == "") = false := by simpa using hk
  refine ⟨?_, ?_, ?_, ?_, ?_, ?_, ?_, ?_, ?_⟩ <;>
    simp [download_attachments, upload_attachment, resolve_issue_key,
      truthy, hkb, mismatchWarn]

theorem C8_witness :
    (download_attachments cfgW netW fs0 (some "OTHER-2") none).result =
      (download_core cfgW netW fs0 "OTHER-2" none).result ∧
    (download_attachments cfgW netW fs0 (some "OTHER-2") none).fs =
      (download_core cfgW netW fs0 "OTHER-2" none).fs ∧
    (download_attachments cfgW netW fs0 (some "OTHER-2") none).net =
      (download_core cfgW netW fs0 "OTHER-2" none).net ∧
    (download_attachments cfgW netW fs0 (some "OTHER-2") none).log =
      mismatchWarn cfgW "OTHER-2" ++
        (download_core cfgW netW fs0 "OTHER-2" none).log ∧
    (upload_attachment cfgW netW fs0 "up.txt" (some "OTHER-2")).result =
      (upload_core cfgW netW fs0 "OTHER-2" "up.txt").result ∧
    (upload_attachment cfgW netW fs0 "up.txt" (some "OTHER-2")).fs =
      (upload_core cfgW netW fs0 "OTHER-2" "up.txt").fs ∧
    (upload_attachment cfgW netW fs0 "up.txt" (some "OTHER-2")).net =
      (upload_core cfgW netW fs0 "OTHER-2" "up.txt").net ∧
    (upload_attachment cfgW netW fs0 "up.txt" (some "OTHER-2")).log =
      mismatchWarn cfgW "OTHER-2" ++
        (upload_core cfgW netW fs0 "OTHER-2" "up.txt").log ∧
    mismatchWarn cfgW "OTHER-2" =
      (if "OTHER-2".startsWith (pyStr cfgW.projectKey ++ "-") then []
       else [LogEntry.warnProjectMismatch "OTHER-2" cfgW.projectKey]) :=
  C8_project_check_is_soft cfgW netW fs0 "OTHER-2" "up.txt" none (by decide)

theorem savedPaths_cons_of_not (atts : List Attachment) (f : String)
    (rest : List String) (hP : ¬∃ a ∈ atts, a.filename = f) :
    savedPaths atts (f :: rest) = savedPaths atts rest :=
  List.filterMap_cons_none (if_neg hP)

theorem savedPaths_cons_of_match (atts : List Attachment) (f : String)
    (rest : List String) (hQ : ∃ a ∈ atts, a.filename = f) :
    savedPaths atts (f :: rest) = ("./tmp/" ++ f) :: savedPaths atts rest :=
  List.filterMap_cons_some (if_pos hQ)

theorem missedNames_cons_of_not (atts : List Attachment) (f : String)
    (rest : List String) (hP : ¬∃ a ∈ atts, a.filename = f) :
    missedNames atts (f :: rest) = f :: missedNames atts rest :=
  List.filter_cons_of_pos (decide_eq_true hP)

theorem missedNames_cons_of_match (atts : List Attachment) (f : String)
    (rest : List String) (hQ : ∃ a ∈ atts, a.filename = f) :
    missedNames atts (f :: rest) = missedNames atts rest :=
  List.filter_cons_of_neg
    (fun h => (not_not_intro hQ) (of_decide_eq_true h))

theorem dlFiltered_done (net : Net) (atts : List Attachment)
    (hok : ∀ a ∈ atts, ∃ b, net.getContent a.content = Except.ok b) :
    ∀ (names : List String) (fs : FS) (saved nf : List String)
      (calls : List NetCall) (log : List LogEntry),
    ∃ fs2 calls2 log2,
      dlFiltered net atts names fs saved nf calls log =
        DlStep.done fs2 (saved ++ savedPaths atts names)
          (nf ++ missedNames atts names) calls2 log2 := by
  intro names
  induction names with
  | nil =>
    intro fs saved nf calls log
    exact ⟨fs, calls, log, by simp [dlFiltered, savedPaths, missedNames]⟩
  | cons f rest ih =>
    intro fs saved nf calls log
    cases hfind : atts.find? (fun a => a.filename == f) with
    | none =>
      have hP : ¬∃ x ∈ atts, x.filename = f := by
        rintro ⟨x, hx, hxf⟩
        exact (List.find?_eq_none.mp hfind x hx) (by simp [hxf])
      obtain ⟨fs2, calls2, log2, hrec⟩ := ih fs saved (nf ++ [f]) calls
        (log ++ [LogEntry.warnFileNotFoundInAttachments f])
      refine ⟨fs2, calls2, log2, ?_⟩
      have hstep : dlFiltered net atts (f :: rest) fs saved nf calls log =
          dlFiltered net atts rest fs saved (nf ++ [f]) calls
            (log ++ [LogEntry.warnFileNotFoundInAttachments f]) := by
        simp only [dlFiltered, hfind]
      rw [hstep, hrec, savedPaths_cons_of_not atts f rest hP,
        missedNames_cons_of_not atts f rest hP,
        List.append_assoc, List.singleton_append]
    | some a =>
      have hmem : a ∈ atts := List.mem_of_find?_eq_some hfind
      have haf : a.filename = f := by
        simpa using List.find?_some hfind
      subst haf
      have hQ : ∃ x ∈ atts, x.filename = a.filename := ⟨a, hmem, rfl⟩
      obtain ⟨b, hb⟩ := hok a hmem
      obtain ⟨fs2, calls2, log2, hrec⟩ := ih (fs.writeFile a.filename b)
        (saved ++ ["./tmp/" ++ a.filename]) nf
        (calls ++ [NetCall.httpGet a.content])
        (log ++ [LogEntry.debugDownloaded ("./tmp/" ++ a.filename)])
      refine ⟨fs2, calls2, log2, ?_⟩
      have hstep : dlFiltered net atts (a.filename :: rest) fs saved nf
            calls log =
          dlFiltered net atts rest (fs.writeFile a.filename b)
            (saved ++ ["./tmp/" ++ a.filename]) nf
            (calls ++ [NetCall.httpGet a.content])
            (log ++ [LogEntry.debugDownloaded ("./tmp/" ++ a.filename)]) := by
        simp only [dlFiltered, hfind, hb]
      rw [hstep, hrec, savedPaths_cons_of_match atts a.filename rest hQ,
        missedNames_cons_of_match atts a.filename rest hQ,
        List.append_assoc, List.singleton_append]

theorem lookupKey_downloadDict (cfg : Config) (k : String)
    (s n : List String) (m : String) :
    lookupKey (downloadDict cfg k s n m) "downloaded_files" =
      some (RVal.strList s) ∧
    lookupKey (downloadDict cfg k s n m) "not_found_files" =
      some (RVal.strList n) := by
  simp [downloadDict, lookupKey]

/-- Claim C1: for every issue whose attachment list has an attachment named
`a.png` and none named `ghost.png`, a filtered download of
`{a.png, ghost.png}` (when the fetches succeed) returns
`downloaded_files = ["./tmp/a.png"]` and `not_found_files = ["ghost.png"]`;
in general every requested name with no exact match is accumulated into
`not_found_files` while the matching names are still downloaded — partial
success, not all-or-nothing. -/
theorem C1_download_partial_success (cfg : Config) (net : Net) (fs : FS)
    (k : String) (atts : List Attachment) (f0 : String) (fl0 : List String)
    (hk : k ≠ "")
    (hiss : net.getIssue (issueUrl cfg k) = Except.ok atts)
    (hok : ∀ a ∈ atts, ∃ b, net.getContent a.content = Except.ok b)
    (ha : ∃ a ∈ atts, a.filename = "a.png")
    (hg : ∀ a ∈ atts, a.filename ≠ "ghost.png") :
    (∃ d, (download_attachments cfg net fs (some k)
          (some ["a.png", "ghost.png"])).result = PyResult.ok (some d) ∧
      lookupKey d "downloaded_files" = some (RVal.strList ["./tmp/a.png"]) ∧
      lookupKey d "not_found_files" = some (RVal.strList ["ghost.png"])) ∧
    (∃ d, (download_attachments cfg net fs (some k)
          (some (f0 :: fl0))).result = PyResult.ok (some d) ∧
      lookupKey d "downloaded_files" =
        some (RVal.strList (savedPaths atts (f0 :: fl0))) ∧
      lookupKey d "not_found_files" =
        some (RVal.strList (missedNames atts (f0 :: fl0)))) := by
  have hkb : (k == "") = false := by simpa using hk
  obtain ⟨a0, ha0, ha0f⟩ := ha
  have hne : atts ≠ [] := List.ne_nil_of_mem ha0
  have hemp : atts.isEmpty = false := by
    cases atts with
    | nil => exact absurd rfl hne
    | cons x xs => rfl
  have hgen : ∀ (g : String) (gl : List String),
      ∃ d, (download_attachments cfg net fs (some k)
          (some (g :: gl))).result = PyResult.ok (some d) ∧
        lookupKey d "downloaded_files" =
          some (RVal.strList (savedPaths atts (g :: gl))) ∧
        lookupKey d "not_found_files" =
          some (RVal.strList (missedNames atts (g :: gl))) := by
    intro g gl
    obtain ⟨fs2, calls2, log2, hdl⟩ := dlFiltered_done net atts hok (g :: gl)
      fs.mkTmp [] [] [NetCall.httpGet (issueUrl cfg k)]
      [LogEntry.infoRequestedFiles (g :: gl),
       LogEntry.infoAvailableFiles (atts.map (fun a => a.filename))]
    refine ⟨downloadDict cfg k (savedPaths atts (g :: gl))
        (missedNames atts (g :: gl))
        (filteredMessage k (savedPaths atts (g :: gl))
          (missedNames atts (g :: gl)) (g :: gl).length),
      ?_, (lookupKey_downloadDict cfg k _ _ _).1,
      (lookupKey_downloadDict cfg k _ _ _).2⟩
    simp [download_attachments, resolve_issue_key, truthy, hkb,
      download_core, hiss, hemp, filteredRun, hdl]
  refine ⟨?_, hgen f0 fl0⟩
  have hPA : ∃ a ∈ atts, a.filename = "a.png" := ⟨a0, ha0, ha0f⟩
  have hPG : ¬∃ a ∈ atts, a.filename = "ghost.png" := by
    rintro ⟨x, hx, hxf⟩
    exact hg x hx hxf
  have hS : savedPaths atts ["a.png", "ghost.png"] = ["./tmp/a.png"] := by
    rw [savedPaths_cons_of_match atts "a.png" ["ghost.png"] hPA,
      savedPaths_cons_of_not atts "ghost.png" [] hPG]
    rfl
  have hN : missedNames atts ["a.png", "ghost.png"] = ["ghost.png"] := by
    rw [missedNames_cons_of_match atts "a.png" ["ghost.png"] hPA,
      missedNames_cons_of_not atts "ghost.png" [] hPG]
    rfl
  obtain ⟨d, hd1, hd2, hd3⟩ := hgen "a.png" ["ghost.png"]
  exact ⟨d, hd1, by rw [hd2, hS], by rw [hd3, hN]⟩

theorem C1_witness :
    ∃ d, (download_attachments cfgW netW fs0 (some "PROJ-1")
        (some ["a.png", "ghost.png"])).result = PyResult.ok (some d) ∧
      lookupKey d "downloaded_files" = some (RVal.strList ["./tmp/a.png"]) ∧
      lookupKey d "not_found_files" = some (RVal.strList ["ghost.png"]) :=
  (C1_download_partial_success cfgW netW fs0 "PROJ-1" [attA] "a.png"
    ["ghost.png"] (by decide) rfl (fun a _ => ⟨[7, 7, 7], rfl⟩)
    ⟨attA, by simp, rfl⟩ (by decide)).1

/-- Claim C6: when an issue's attachment list contains two or more
attachments with the same filename, a filtered download of that filename
fetches and saves exactly the first matching attachment in the sequence:
the only content URL requested is the first match's, and its bytes are what
lands in the staging area. -/
theorem C6_first_match_wins (cfg : Config) (net : Net) (fs : FS)
    (k f : String) (pre post : List Attachment) (a : Attachment)
    (b : List Nat) (hk : k ≠ "")
    (hiss : net.getIssue (issueUrl cfg k) = Except.ok (pre ++ a :: post))
    (hpre : ∀ x ∈ pre, x.filename ≠ f) (haf : a.filename = f)
    (hdup : ∃ x ∈ post, x.filename = f)
    (hc : net.getContent a.content = Except.ok b) :
    (download_attachments cfg net fs (some k) (some [f])).net =
      [NetCall.httpGet (issueUrl cfg k), NetCall.httpGet a.content] ∧
    (download_attachments cfg net fs (some k) (some [f])).fs.getFile f =
      some b ∧
    (∃ d, (download_attachments cfg net fs (some k) (some [f])).result =
        PyResult.ok (some d) ∧
      lookupKey d "downloaded_files" =
        some (RVal.strList ["./tmp/" ++ f]) ∧
      lookupKey d "not_found_files" = some (RVal.strList [])) := by
  subst haf
  have hkb : (k == "") = false := by simpa using hk
  have hfind : (pre ++ a :: post).find? (fun x => x.filename == a.filename) =
      some a :=
    find_first_match _ pre a post
      (fun x hx => by simpa using hpre x hx) (by simp)
  have hemp : (pre ++ a :: post).isEmpty = false := by
    cases pre with
    | nil => rfl
    | cons x xs => rfl
  have hdl : ∀ (fsx : FS) (calls0 : List NetCall) (log0 : List LogEntry),
      dlFiltered net (pre ++ a :: post) [a.filename] fsx [] [] calls0 log0 =
        DlStep.done (fsx.writeFile a.filename b) ["./tmp/" ++ a.filename] []
          (calls0 ++ [NetCall.httpGet a.content])
          (log0 ++ [LogEntry.debugDownloaded ("./tmp/" ++ a.filename)]) := by
    intro fsx calls0 log0
    simp [dlFiltered, hfind, hc]
  have hres : (download_attachments cfg net fs (some k)
        (some [a.filename])).result =
      PyResult.ok (some (downloadDict cfg k ["./tmp/" ++ a.filename] []
        (filteredMessage k ["./tmp/" ++ a.filename] [] 1))) := by
    simp [download_attachments, resolve_issue_key, truthy, hkb,
      download_core, hiss, hemp, filteredRun, hdl]
  refine ⟨?_, ?_, ⟨_, hres, (lookupKey_downloadDict cfg k _ _ _).1,
      (lookupKey_downloadDict cfg k _ _ _).2⟩⟩ <;>
    simp [download_attachments, resolve_issue_key, truthy, hkb,
      download_core, hiss, hemp, filteredRun, hdl, FS.getFile, FS.writeFile,
      FS.mkTmp, getEntry_setEntry_self]

theorem C6_witness :
    (download_attachments cfgW netDup fs0 (some "PROJ-1")
        (some ["dup.png"])).net =
      [NetCall.httpGet (issueUrl cfgW "PROJ-1"),
       NetCall.httpGet attDup1.content] ∧
    (download_attachments cfgW netDup fs0 (some "PROJ-1")
        (some ["dup.png"])).fs.getFile "dup.png" = some [7, 7, 7] ∧
    (∃ d, (download_attachments cfgW netDup fs0 (some "PROJ-1")
          (some ["dup.png"])).result = PyResult.ok (some d) ∧
      lookupKey d "downloaded_files" =
        some (RVal.strList ["./tmp/" ++ "dup.png"]) ∧
      lookupKey d "not_found_files" = some (RVal.strList [])) :=
  C6_first_match_wins cfgW netDup fs0 "PROJ-1" "dup.png" [attA] [attDup2]
    attDup1 [7, 7, 7] (by decide) rfl (by decide) rfl
    ⟨attDup2, by simp, rfl⟩ rfl

/-- Claim C7: re-running a filtered download for a filename already staged
overwrites the prior staged file: afterwards its bytes are exactly the
content fetched from the first matching attachment's URL, regardless of the
previously staged bytes (idempotent convergence, not merge). -/
theorem C7_redownload_overwrites (cfg : Config) (net : Net) (fs : FS)
    (k f : String) (pre post : List Attachment) (a : Attachment)
    (b old : List Nat) (hk : k ≠ "")
    (hold : fs.getFile f = some old)
    (hiss : net.getIssue (issueUrl cfg k) = Except.ok (pre ++ a :: post))
    (hpre : ∀ x ∈ pre, x.filename ≠ f) (haf : a.filename = f)
    (hc : net.getContent a.content = Except.ok b) :
    (download_attachments cfg net fs (some k) (some [f])).fs.getFile f =
      some b ∧
    (∃ d, (download_attachments cfg net fs (some k) (some [f])).result =
        PyResult.ok (some d) ∧
      lookupKey d "downloaded_files" =
        some (RVal.strList ["./tmp/" ++ f])) := by
  subst haf
  have hkb : (k == "") = false := by simpa using hk
  have hfind : (pre ++ a :: post).find? (fun x => x.filename == a.filename) =
      some a :=
    find_first_match _ pre a post
      (fun x hx => by simpa using hpre x hx) (by simp)
  have hemp : (pre ++ a :: post).isEmpty = false := by
    cases pre with
    | nil => rfl
    | cons x xs => rfl
  have hdl : ∀ (fsx : FS) (calls0 : List NetCall) (log0 : List LogEntry),
      dlFiltered net (pre ++ a :: post) [a.filename] fsx [] [] calls0 log0 =
        DlStep.done (fsx.writeFile a.filename b) ["./tmp/" ++ a.filename] []
          (calls0 ++ [NetCall.httpGet a.content])
          (log0 ++ [LogEntry.debugDownloaded ("./tmp/" ++ a.filename)]) := by
    intro fsx calls0 log0
    simp [dlFiltered, hfind, hc]
  have hres : (download_attachments cfg net fs (some k)
        (some [a.filename])).result =
      PyResult.ok (some (downloadDict cfg k ["./tmp/" ++ a.filename] []
        (filteredMessage k ["./tmp/" ++ a.filename] [] 1))) := by
    simp [download_attachments, resolve_issue_key, truthy, hkb,
      download_core, hiss, hemp, filteredRun, hdl]
  refine ⟨?_, ⟨_, hres, (lookupKey_downloadDict cfg k _ _ _).1⟩⟩
  simp [download_attachments, resolve_issue_key, truthy, hkb,
    download_core, hiss, hemp, filteredRun, hdl, FS.getFile, FS.writeFile,
    FS.mkTmp, getEntry_setEntry_self]

theorem C7_witness :
    (download_attachments cfgW netDup fsStale (some "PROJ-1")
        (some ["dup.png"])).fs.getFile "dup.png" = some [7, 7, 7] ∧
    (∃ d, (download_attachments cfgW netDup fsStale (some "PROJ-1")
          (some ["dup.png"])).result = PyResult.ok (some d) ∧
      lookupKey d "downloaded_files" =
        some (RVal.strList ["./tmp/" ++ "dup.png"])) :=
  C7_redownload_overwrites cfgW netDup fsStale "PROJ-1" "dup.png" [attA]
    [attDup2] attDup1 [7, 7, 7] [9, 9] (by decide) (by decide) rfl
    (by decide) rfl rfl

end Jira
